import Mathlib

set_option maxHeartbeats 1000000
set_option maxRecDepth 100000

/-!
Shallow embedding of `src/client.py` (EncryptedFileTransfer server, per-connection
handler).  Bytes are lists of naturals; the socket is a byte stream consumed from
the front (`recv n` returns the first `min n available` bytes); external
collaborators (database, crypto library, checksum, filesystem) are modelled by an
`Oracle` of explicit results plus explicit `DBState` / `Fs` states.  Python
exceptions are modelled by an `Exc` code; a handler result is either a normal
outcome (new session, database, filesystem, list of responses sent) or an
escaped exception (no response sent, control never returns to the read loop).
-/

abbrev Bytes := List Nat

/-- Little-endian value of a byte list, as produced by `struct.unpack` with
`<H` / `<I` on the corresponding slices. -/
def leVal (bs : Bytes) : Nat := bs.foldr (fun b acc => b + 256 * acc) 0

/-- Python `bytes.decode()`; bytes below 256 are mapped to the scalar of the
same value (one-byte characters, the only ones the protocol uses). -/
def pyDecode (bs : Bytes) : String := String.mk (bs.map Char.ofNat)

/-- Python `s[:-1]`. -/
def pyDropLast (s : String) : String := String.mk s.toList.dropLast

/-- Python `s.strip(chr(0))`: removes leading and trailing NUL characters. -/
def stripNulls (s : String) : String :=
  String.mk (((s.toList.dropWhile (fun c => c == Char.ofNat 0)).reverse.dropWhile
    (fun c => c == Char.ofNat 0)).reverse)

/-- Python `bs.rstrip(bytes([0]))`: removes trailing zero bytes. -/
def rstrip0 (bs : Bytes) : Bytes := (bs.reverse.dropWhile (fun b => b == 0)).reverse

/-- Python `os.path.join` for the two-component paths the handler builds. -/
def pathJoin (d f : String) : String := d ++ "/" ++ f

/-- Session state of `Client.__init__` (client.py lines 13-21). -/
structure Session where
  client_id : Option Bytes
  running : Bool
  aes_key : Option Bytes
  name : Option String
  received_packets : Nat

deriving instance DecidableEq for Session

/-- State of `Client.__init__`: everything unset, loop active. -/
def initSession : Session :=
  { client_id := none, running := true, aes_key := none, name := none, received_packets := 0 }

/-- Filesystem: a set of directories and of files keyed by (directory, file name). -/
structure Fs where
  dirs : List String
  files : List (String × String × Bytes)

deriving instance DecidableEq for Fs

def Fs.hasDir (fs : Fs) (d : String) : Bool := fs.dirs.contains d

def Fs.mkdir (fs : Fs) (d : String) : Fs := { fs with dirs := d :: fs.dirs }

def Fs.readFile (fs : Fs) (d f : String) : Option Bytes :=
  (fs.files.find? (fun e => e.1 == d && e.2.1 == f)).map (fun e => e.2.2)

def Fs.fileExists (fs : Fs) (d f : String) : Bool := (fs.readFile d f).isSome

def Fs.removeFile (fs : Fs) (d f : String) : Fs :=
  { fs with files := fs.files.filter (fun e => !(e.1 == d && e.2.1 == f)) }

/-- Overwrite (or create) the file with the given content. -/
def Fs.writeFile (fs : Fs) (d f : String) (bs : Bytes) : Fs :=
  { fs with files := (d, f, bs) :: (fs.removeFile d f).files }

/-- Python `open(path, 'ab'); write(bs)`: appends, creating the file if absent. -/
def Fs.appendFile (fs : Fs) (d f : String) (bs : Bytes) : Fs :=
  fs.writeFile d f ((fs.readFile d f).getD [] ++ bs)

/-- Python `os.listdir(d)`: names of the files inside directory `d`. -/
def Fs.listdir (fs : Fs) (d : String) : List String :=
  (fs.files.filter (fun e => e.1 == d)).map (fun e => e.2.1)

def Fs.rmdir (fs : Fs) (d : String) : Fs :=
  { fs with dirs := fs.dirs.filter (fun x => x != d) }

/-- The server-side database (external AccountStore), as the handler observes it:
accounts (name as registered, 16-byte id), public keys and wrapped AES keys per
id, and file records (id, file name, path, success flag). -/
structure DBState where
  accounts : List (String × Bytes)
  pubKeys : List (Bytes × Bytes)
  aesKeys : List (Bytes × Bytes)
  fileRecords : List (Bytes × String × String × Bool)

deriving instance DecidableEq for DBState

def DBState.hasName (db : DBState) (n : String) : Bool := db.accounts.any (fun e => e.1 == n)

def DBState.lookupName (db : DBState) (n : String) : Option Bytes :=
  (db.accounts.find? (fun e => e.1 == n)).map (fun e => e.2)

def DBState.hasAccount (db : DBState) (n : String) (cid : Bytes) : Bool :=
  db.accounts.any (fun e => e.1 == n && e.2 == cid)

def DBState.addAccount (db : DBState) (n : String) (cid : Bytes) : DBState :=
  { db with accounts := (n, cid) :: db.accounts }

def DBState.getPub (db : DBState) (cid : Bytes) : Option Bytes :=
  (db.pubKeys.find? (fun e => e.1 == cid)).map (fun e => e.2)

def DBState.setPub (db : DBState) (cid k : Bytes) : DBState :=
  { db with pubKeys := (cid, k) :: db.pubKeys.filter (fun e => !(e.1 == cid)) }

def DBState.getAes (db : DBState) (cid : Bytes) : Option Bytes :=
  (db.aesKeys.find? (fun e => e.1 == cid)).map (fun e => e.2)

def DBState.setAes (db : DBState) (cid k : Bytes) : DBState :=
  { db with aesKeys := (cid, k) :: db.aesKeys.filter (fun e => !(e.1 == cid)) }

def DBState.addFile (db : DBState) (cid : Bytes) (n p : String) (ok : Bool) : DBState :=
  { db with fileRecords := (cid, n, p, ok) :: db.fileRecords }

/-- Python exception classes that can escape or be caught in client.py. -/
inductive Exc where
  | ioError
  | osError
  | structError
  | fileNotFound
  | valueError
  | typeError

deriving instance DecidableEq for Exc

/-- The exception classes caught by `handle_save_file`'s
`except (IOError, OSError, struct.error, FileNotFoundError)` clause
(client.py line 164). -/
def caughtBySave : Exc → Bool
  | .ioError => true
  | .osError => true
  | .structError => true
  | .fileNotFound => true
  | .valueError => false
  | .typeError => false

/-- Outbound responses, built by the external `protocol_handler` module. -/
inductive Response where
  | generalError
  | failedRegister
  | successRegister (cid : Bytes)
  | successLogin (cid key : Bytes)
  | failedLogin (cid : Bytes)
  | sendAesKey (cid key : Bytes)
  | sendFileCrc (cid : Bytes) (contentSize : Nat) (fileName : String) (crc : Nat)
  | finalConfirmation (cid : Bytes)

deriving instance DecidableEq for Response

/-- Result of one handler invocation: a normal return (new session, database,
filesystem and the responses sent, in order), or a Python exception escaping
the handler — in which case no response was sent and control does not return
to the dispatch loop. -/
inductive HResult where
  | ok (s : Session) (db : DBState) (fs : Fs) (out : List Response)
  | exn (e : Exc)

deriving instance DecidableEq for HResult

/-- Responses sent by a handler invocation (none when an exception escapes). -/
def HResult.outOf : HResult → List Response
  | .ok _ _ _ out => out
  | .exn _ => []

/-- The `running` flag after a handler invocation; an escaped exception leaves
the flag as it was (the worker simply crashes out of the loop). -/
def HResult.runningOf (orig : Bool) : HResult → Bool
  | .ok s _ _ _ => s.running
  | .exn _ => orig

/-- External results and failure switches for one request round: AES-CBC
decryption under the session key with the fixed zero IV (`dec`), RSA-OAEP
wrapping under the client's public key (`wrap`), the fresh 32-byte key drawn by
`get_random_bytes` (`freshKey`), the `file_crc` result (`crc`, `none` meaning
failure), whether `RSA.importKey` raises on the stored public-key blob
(`importFails`), and whether each database call / the file write reports
failure. -/
structure Oracle where
  dec : Bytes → Bytes
  wrap : Bytes → Bytes
  freshKey : Bytes
  crc : Option Nat
  importFails : Bool
  lookupFails : Bool
  registerFails : Bool
  addPubFails : Bool
  getPubFails : Bool
  addAesFails : Bool
  getAesFails : Bool
  saveRecordFails : Bool
  writeFails : Bool

/-- Modelled from the spec: `util.string_to_uuid` (the IdentityDeriver) is not
under `src/`; the spec says only that it deterministically derives a 16-byte
identifier from the name, so a concrete deterministic derivation is used. -/
def string_to_uuid (s : String) : Bytes :=
  (List.range 16).map (fun i =>
    s.toList.foldl (fun acc c => (acc * 31 + c.toNat) % 256) (i % 256))

/-- `Client.handle_register` (client.py lines 60-76). -/
def handle_register (o : Oracle) (s : Session) (db : DBState) (fs : Fs) (p : Bytes) : HResult :=
  let nameStr := pyDecode p
  match (if o.lookupFails then none else some (db.hasName nameStr)) with
  | none => .ok s db fs [.generalError]
  | some true => .ok { s with running := false } db fs [.failedRegister]
  | some false =>
    let cid := string_to_uuid nameStr
    let s1 := { s with client_id := some cid }
    if o.registerFails then .ok s1 db fs [.generalError]
    else .ok { s1 with name := some (pyDropLast nameStr) } (db.addAccount nameStr cid) fs
      [.successRegister cid]

/-- Result of `Client.generate_aes_key`: success (True), failure after a
generic-error response (False), or an escaped exception. -/
inductive GenResult where
  | ok (s : Session) (db : DBState)
  | fail (s : Session) (db : DBState) (out : List Response)
  | exn (e : Exc)

deriving instance DecidableEq for GenResult

/-- `Client.generate_aes_key` (client.py lines 115-129).  `RSA.importKey`
raises `ValueError` on a malformed stored key blob (uncaught there), modelled
by `o.importFails`. -/
def generate_aes_key (o : Oracle) (s : Session) (db : DBState) : GenResult :=
  match (if o.getPubFails then none else db.getPub (s.client_id.getD [])) with
  | none => .fail s db [.generalError]
  | some _pk =>
    if o.importFails then .exn .valueError
    else
      let s1 := { s with aes_key := some o.freshKey }
      if o.addAesFails then .fail s1 db [.generalError]
      else .ok s1 (db.setAes (s.client_id.getD []) (o.wrap o.freshKey))

/-- `Client.handle_login` (client.py lines 78-98). -/
def handle_login (o : Oracle) (s : Session) (db : DBState) (fs : Fs) (p : Bytes) : HResult :=
  let nameStr := pyDecode p
  match (if o.lookupFails then none else some (db.hasAccount nameStr (s.client_id.getD []))) with
  | none => .ok s db fs [.generalError]
  | some true =>
    let s1 := { s with name := some (pyDropLast nameStr) }
    match generate_aes_key o s1 db with
    | .fail s2 db2 out => .ok s2 db2 fs out
    | .exn e => .exn e
    | .ok s2 db2 =>
      match (if o.getAesFails then none else db2.getAes (s.client_id.getD [])) with
      | none => .ok s2 db2 fs [.generalError]
      | some wk => .ok s2 db2 fs [.successLogin (s.client_id.getD []) wk]
  | some false => .ok s db fs [.failedLogin (s.client_id.getD [])]

/-- `Client.handle_public_key` (client.py lines 100-113). -/
def handle_public_key (o : Oracle) (s : Session) (db : DBState) (fs : Fs) (p : Bytes) : HResult :=
  let pub := p.drop 255
  if o.addPubFails then .ok s db fs [.generalError]
  else
    let db1 := db.setPub (s.client_id.getD []) pub
    match generate_aes_key o s db1 with
    | .fail s2 db2 out => .ok s2 db2 fs out
    | .exn e => .exn e
    | .ok s2 db2 =>
      match (if o.getAesFails then none else db2.getAes (s.client_id.getD [])) with
      | none => .ok s2 db2 fs [.generalError]
      | some wk => .ok s2 db2 fs [.sendAesKey (s.client_id.getD []) wk]

/-- `content_size` field of a save-file payload (`struct.unpack "<IIHH255s"`). -/
def csOf (p : Bytes) : Nat := leVal (p.take 4)

/-- `decrypted_size` field of a save-file payload. -/
def dsOf (p : Bytes) : Nat := leVal ((p.drop 4).take 4)

/-- `packet_number` field of a save-file payload. -/
def pnOf (p : Bytes) : Nat := leVal ((p.drop 8).take 2)

/-- `total_packets` field of a save-file payload. -/
def tpOf (p : Bytes) : Nat := leVal ((p.drop 10).take 2)

/-- `file_name` field of a save-file payload, decoded and NUL-stripped. -/
def fnameOf (p : Bytes) : String := stripNulls (pyDecode ((p.drop 12).take 255))

/-- `encrypted_data = payload[267:267 + 1024]` (client.py line 136). -/
def chunkOf (p : Bytes) : Bytes := (p.drop 267).take 1024

/-- Body of `Client.handle_save_file` inside the `try` block (client.py lines
132-162), with `Client.handle_file_crc` (lines 174-181) inlined at its single
call site.  Exceptions carry the filesystem as it stands when they are raised:
`struct.error` when the payload is shorter than the 267-byte sub-header,
`TypeError` from `os.path.join(None, ...)` when no name is set, `TypeError`
from `AES.new(None, ...)` when no session key is set, `ValueError` from
`cipher.decrypt` when the ciphertext slice is not a multiple of 16 bytes, and
`IOError` when the append-write fails. -/
def save_body (o : Oracle) (s : Session) (fs : Fs) (p : Bytes) :
    Except (Exc × Fs) (Session × Fs × List Response) :=
  if p.length < 267 then .error (.structError, fs)
  else match s.name with
  | none => .error (.typeError, fs)
  | some nm =>
    let fs1 := if fs.hasDir nm then fs else fs.mkdir nm
    match s.aes_key with
    | none => .error (.typeError, fs1)
    | some _ =>
      if (chunkOf p).length % 16 ≠ 0 then .error (.valueError, fs1)
      else
        let plain0 := o.dec (chunkOf p)
        let plain := if pnOf p = tpOf p then rstrip0 plain0 else plain0
        let fs2 := if s.received_packets == 0 && fs1.fileExists nm (fnameOf p) then
          fs1.removeFile nm (fnameOf p) else fs1
        if o.writeFails then .error (.ioError, fs2)
        else
          let fs3 := fs2.appendFile nm (fnameOf p) plain
          if s.received_packets + 1 = tpOf p then
            match o.crc with
            | none => .ok ({ s with received_packets := 0, running := false }, fs3,
                [.generalError])
            | some c => .ok ({ s with received_packets := 0 }, fs3,
                [.sendFileCrc (s.client_id.getD []) (csOf p) (fnameOf p) c])
          else .ok ({ s with received_packets := s.received_packets + 1 }, fs3, [])

/-- `Client.handle_save_file` (client.py lines 131-167): the body wrapped by
the `except (IOError, OSError, struct.error, FileNotFoundError)` clause, which
sends a generic error and clears `running`; any other exception escapes. -/
def handle_save_file (o : Oracle) (s : Session) (db : DBState) (fs : Fs) (p : Bytes) : HResult :=
  match save_body o s fs p with
  | .ok (s1, fs1, out) => .ok s1 db fs1 out
  | .error (e, fs1) =>
    if caughtBySave e then .ok { s with running := false } db fs1 [.generalError]
    else .exn e

/-- `Client.handle_transfer_success` (client.py lines 183-191).
`os.path.join(None, file_name)` raises `TypeError` when no name is set. -/
def handle_transfer_success (o : Oracle) (s : Session) (db : DBState) (fs : Fs) (p : Bytes) :
    HResult :=
  let fname := stripNulls (pyDecode p)
  match s.name with
  | none => .exn .typeError
  | some nm =>
    if o.saveRecordFails then .ok s db fs [.generalError]
    else .ok { s with running := false }
      (db.addFile (s.client_id.getD []) fname (pathJoin nm fname) true) fs
      [.finalConfirmation (s.client_id.getD [])]

/-- `Client.handle_transfer_failed` (client.py lines 193-206).
`os.path.join(None, ...)` raises `TypeError` when no name is set;
`os.listdir` raises `FileNotFoundError` when the client directory is absent. -/
def handle_transfer_failed (o : Oracle) (s : Session) (db : DBState) (fs : Fs) (p : Bytes) :
    HResult :=
  let fname := stripNulls (pyDecode p)
  match s.name with
  | none => .exn .typeError
  | some nm =>
    let fs1 := if fs.fileExists nm fname then fs.removeFile nm fname else fs
    if fs1.hasDir nm = false then .exn .fileNotFound
    else
      let fs2 := if fs1.listdir nm = [] then fs1.rmdir nm else fs1
      if o.saveRecordFails then .ok s db fs2 [.generalError]
      else .ok { s with running := false }
        (db.addFile (s.client_id.getD []) fname (pathJoin nm fname) false) fs2
        [.finalConfirmation (s.client_id.getD [])]

/-- The seven request kinds of `codes.RequestCode`. -/
inductive RequestCode where
  | registrationRequest
  | receivePublicKey
  | loginRequest
  | saveFileRequest
  | fileTransferSuccess
  | crcMismatch
  | fileTransferFailed

deriving instance DecidableEq for RequestCode

/-- Modelled from the spec: the numeric request-code values live in `codes.py`,
which is not under `src/`; the spec fixes only the seven-element semantic set
("numeric values owned externally"), so distinct concrete values are assumed. -/
def codeOf (c : Nat) : Option RequestCode :=
  if c = 1025 then some .registrationRequest
  else if c = 1026 then some .receivePublicKey
  else if c = 1027 then some .loginRequest
  else if c = 1028 then some .saveFileRequest
  else if c = 1029 then some .fileTransferSuccess
  else if c = 1030 then some .crcMismatch
  else if c = 1031 then some .fileTransferFailed
  else none

/-- Outcome of the framing phase of one `get_requests` iteration. -/
inductive Parsed where
  | emptyStream
  | shortHeader
  | request (cid : Bytes) (version code psize : Nat) (payload rest : Bytes)

deriving instance DecidableEq for Parsed

/-- Framing phase of `Client.get_requests` (client.py lines 26-34):
`recv(23)` returns the first `min 23 available` bytes of the stream; an empty
result means the peer closed, fewer than 23 bytes raise `ValueError` (caught);
otherwise the header is unpacked as `<16sBHI` little-endian and `recv` of the
payload size returns that many further bytes. -/
def parseRequest (stream : Bytes) : Parsed :=
  if stream.length = 0 then .emptyStream
  else if stream.length < 23 then .shortHeader
  else
    .request (stream.take 16) (stream.getD 16 0) (leVal ((stream.drop 17).take 2))
      (leVal ((stream.drop 19).take 4))
      ((stream.drop 23).take (leVal ((stream.drop 19).take 4)))
      (stream.drop (23 + leVal ((stream.drop 19).take 4)))

/-- Whole observable state of one connection worker: session, shared database,
filesystem, unread socket bytes, responses sent so far. -/
structure World where
  sess : Session
  db : DBState
  fs : Fs
  stream : Bytes
  out : List Response

deriving instance DecidableEq for World

/-- Extends the world with a handler result; an escaped exception aborts the
worker (no world survives). -/
def liftH (w : World) : HResult → Except Exc World
  | .ok s db fs out => .ok { w with sess := s, db := db, fs := fs, out := w.out ++ out }
  | .exn e => .error e

/-- One iteration of the `while self.running` loop of `Client.get_requests`
(client.py lines 24-58): frame a request, store the header's client id into
the session (line 33), then dispatch on the code.  `CRC_MISMATCH` only logs
and continues; an unknown code sends a generic error and clears `running`. -/
def step (o : Oracle) (w : World) : Except Exc World :=
  match parseRequest w.stream with
  | .emptyStream => .ok { w with sess := { w.sess with running := false } }
  | .shortHeader => .ok { w with sess := { w.sess with running := false } }
  | .request cid _v code _psize payload rest =>
    let s := { w.sess with client_id := some cid }
    let w1 : World := { w with sess := s, stream := rest }
    match codeOf code with
    | some .registrationRequest => liftH w1 (handle_register o s w1.db w1.fs payload)
    | some .receivePublicKey => liftH w1 (handle_public_key o s w1.db w1.fs payload)
    | some .loginRequest => liftH w1 (handle_login o s w1.db w1.fs payload)
    | some .saveFileRequest => liftH w1 (handle_save_file o s w1.db w1.fs payload)
    | some .fileTransferSuccess => liftH w1 (handle_transfer_success o s w1.db w1.fs payload)
    | some .crcMismatch => .ok w1
    | some .fileTransferFailed => liftH w1 (handle_transfer_failed o s w1.db w1.fs payload)
    | none => .ok { w1 with sess := { s with running := false }, out := w1.out ++ [.generalError] }

/-- Two loop iterations in sequence. -/
def stepTwice (o : Oracle) (w : World) : Except Exc World := (step o w).bind (step o)

/-- The session's client id after a loop iteration (`none` when the worker
crashed on an escaped exception). -/
def cidAfter : Except Exc World → Option Bytes
  | .ok w => w.sess.client_id
  | .error _ => none

/-- Submitting a list of save-file payloads in order to `handle_save_file`,
as the dispatch loop does for consecutive `SAVE_FILE_REQUEST`s; stops (with
`none`) if an exception escapes. -/
def runSaves (o : Oracle) (s : Session) (db : DBState) (fs : Fs) :
    List Bytes → Option (Session × Fs × List Response)
  | [] => some (s, fs, [])
  | p :: ps =>
    match handle_save_file o s db fs p with
    | .ok s1 db1 fs1 out =>
      match runSaves o s1 db1 fs1 ps with
      | some (s2, fs2, outs) => some (s2, fs2, out ++ outs)
      | none => none
    | .exn _ => none

/-- Concatenation of per-packet plaintexts with trailing zero padding removed
from the final one only. -/
def joinStrip : List Bytes → Bytes
  | [] => []
  | [x] => rstrip0 x
  | x :: y :: t => x ++ joinStrip (y :: t)

/-- A well-formed save-file payload for packet `idx + 1` of `N` carrying file
name `fname`: long enough for the sub-header, consistent numbering, and a
ciphertext slice AES can decrypt (a multiple of 16 bytes). -/
abbrev GoodPkt (p : Bytes) (idx N : Nat) (fname : String) : Prop :=
  267 ≤ p.length ∧ pnOf p = idx + 1 ∧ tpOf p = N ∧ fnameOf p = fname ∧
    (chunkOf p).length % 16 = 0

/-! ### Helper lemmas about the filesystem model -/

lemma find?_filter_none {α : Type} (l : List α) (q : α → Bool) :
    (l.filter (fun e => !(q e))).find? q = none := by
  induction l with
  | nil => rfl
  | cons a t ih =>
    by_cases h : q a = true
    · simpa [List.filter_cons, h] using ih
    · simpa [List.filter_cons, List.find?_cons, h] using ih

lemma contains_filter_ne (l : List String) (d : String) :
    (l.filter (fun x => x != d)).contains d = false := by
  induction l with
  | nil => rfl
  | cons a t ih =>
    by_cases h : a = d
    · simpa [List.filter_cons, h] using ih
    · simp [List.filter_cons, h, ih]
      exact fun e => h e.symm

lemma readFile_mkdir (fs : Fs) (d d2 f : String) :
    (fs.mkdir d).readFile d2 f = fs.readFile d2 f := rfl

lemma hasDir_mkdir (fs : Fs) (d : String) : (fs.mkdir d).hasDir d = true := by
  simp [Fs.mkdir, Fs.hasDir]

lemma hasDir_removeFile (fs : Fs) (d f d2 : String) :
    (fs.removeFile d f).hasDir d2 = fs.hasDir d2 := rfl

lemma readFile_writeFile (fs : Fs) (d f : String) (bs : Bytes) :
    (fs.writeFile d f bs).readFile d f = some bs := by
  simp [Fs.writeFile, Fs.readFile, List.find?_cons]

lemma readFile_appendFile (fs : Fs) (d f : String) (bs : Bytes) :
    (fs.appendFile d f bs).readFile d f = some ((fs.readFile d f).getD [] ++ bs) := by
  simp [Fs.appendFile, readFile_writeFile]

lemma readFile_removeFile (fs : Fs) (d f : String) :
    (fs.removeFile d f).readFile d f = none := by
  have h := find?_filter_none fs.files (fun e => e.1 == d && e.2.1 == f)
  simp [Fs.removeFile, Fs.readFile]
  simpa using h

lemma fileExists_removeFile (fs : Fs) (d f : String) :
    (fs.removeFile d f).fileExists d f = false := by
  simp [Fs.fileExists, readFile_removeFile]

lemma hasDir_rmdir (fs : Fs) (d : String) : (fs.rmdir d).hasDir d = false := by
  simpa [Fs.rmdir, Fs.hasDir] using contains_filter_ne fs.dirs d

/-- Framing of a stream that holds at least a full header. -/
lemma parseRequest_long (stream : Bytes) (h : 23 ≤ stream.length) :
    parseRequest stream = .request (stream.take 16) (stream.getD 16 0)
      (leVal ((stream.drop 17).take 2)) (leVal ((stream.drop 19).take 4))
      ((stream.drop 23).take (leVal ((stream.drop 19).take 4)))
      (stream.drop (23 + leVal ((stream.drop 19).take 4))) := by
  unfold parseRequest
  rw [if_neg (by omega), if_neg (by omega)]

/-! ### Shared concrete instances for witnesses -/

/-- An oracle on which every external collaborator succeeds. -/
def okOracle : Oracle :=
  { dec := id, wrap := id, freshKey := List.replicate 32 7, crc := some 99,
    importFails := false, lookupFails := false, registerFails := false,
    addPubFails := false, getPubFails := false, addAesFails := false,
    getAesFails := false, saveRecordFails := false, writeFails := false }

def emptyDB : DBState := { accounts := [], pubKeys := [], aesKeys := [], fileRecords := [] }

def emptyFs : Fs := { dirs := [], files := [] }

/-- A 23-byte request header: client id `replicate 16 b`, version 3,
code `c` and payload size `n` in little-endian. -/
def mkHeader (b c n : Nat) : Bytes :=
  List.replicate 16 b ++ [3, c % 256, c / 256, n % 256, n / 256 % 256, n / 65536 % 256, n / 16777216 % 256]

/-- C2: on every iteration while the session is active, the dispatcher reads
exactly 23 header bytes, then exactly `payload_length` further bytes (possibly
zero) before dispatching; an empty header read clears `running` and exits with
no response, and a short header read ends the session with no response sent
(`struct.unpack` on an exactly-23-byte header cannot itself fail, so the short
read is the only malformed-header case). -/
theorem c2_dispatch_framing (o : Oracle) (w : World) :
    (w.stream = [] →
      step o w = .ok { w with sess := { w.sess with running := false } }) ∧
    (w.stream ≠ [] → w.stream.length < 23 →
      step o w = .ok { w with sess := { w.sess with running := false } }) ∧
    (23 ≤ w.stream.length →
      parseRequest w.stream = .request (w.stream.take 16) (w.stream.getD 16 0)
        (leVal ((w.stream.drop 17).take 2)) (leVal ((w.stream.drop 19).take 4))
        ((w.stream.drop 23).take (leVal ((w.stream.drop 19).take 4)))
        (w.stream.drop (23 + leVal ((w.stream.drop 19).take 4))) ∧
      (leVal ((w.stream.drop 19).take 4) ≤ (w.stream.drop 23).length →
        ((w.stream.drop 23).take (leVal ((w.stream.drop 19).take 4))).length =
          leVal ((w.stream.drop 19).take 4))) := by
  refine ⟨?_, ?_, ?_⟩
  · intro h
    simp [step, parseRequest, h]
  · intro h1 h2
    have h0 : w.stream.length ≠ 0 := by
      simpa [List.length_eq_zero] using h1
    unfold step parseRequest
    rw [if_neg h0, if_pos h2]
  · intro h
    refine ⟨parseRequest_long _ h, ?_⟩
    intro hp
    rw [List.length_take, List.length_drop]
    rw [List.length_drop] at hp
    omega

def c2wEmpty : World := { sess := initSession, db := emptyDB, fs := emptyFs, stream := [], out := [] }

def c2wShort : World := { c2wEmpty with stream := [1, 2, 3] }

def c2wFull : World := { c2wEmpty with stream := mkHeader 1 1030 2 ++ [7, 8] }

theorem c2_witness :
    step okOracle c2wEmpty = .ok { c2wEmpty with sess := { c2wEmpty.sess with running := false } } ∧
    step okOracle c2wShort = .ok { c2wShort with sess := { c2wShort.sess with running := false } } ∧
    parseRequest c2wFull.stream = .request (c2wFull.stream.take 16) (c2wFull.stream.getD 16 0)
      (leVal ((c2wFull.stream.drop 17).take 2)) (leVal ((c2wFull.stream.drop 19).take 4))
      ((c2wFull.stream.drop 23).take (leVal ((c2wFull.stream.drop 19).take 4)))
      (c2wFull.stream.drop (23 + leVal ((c2wFull.stream.drop 19).take 4))) ∧
    ((c2wFull.stream.drop 23).take (leVal ((c2wFull.stream.drop 19).take 4))).length =
      leVal ((c2wFull.stream.drop 19).take 4) := by
  refine ⟨(c2_dispatch_framing okOracle c2wEmpty).1 rfl,
    (c2_dispatch_framing okOracle c2wShort).2.1 (by decide) (by decide), ?_, ?_⟩
  · exact ((c2_dispatch_framing okOracle c2wFull).2.2 (by decide)).1
  · exact ((c2_dispatch_framing okOracle c2wFull).2.2 (by decide)).2 (by decide)

/-- C5: a request whose code is none of the seven recognized ones produces
exactly one generic-error response and clears `running`, whatever the prior
session, database or filesystem state. -/
theorem c5_unknown_code (o : Oracle) (w : World)
    (hlen : 23 ≤ w.stream.length)
    (hcode : codeOf (leVal ((w.stream.drop 17).take 2)) = none) :
    step o w = .ok { w with
      sess := { w.sess with client_id := some (w.stream.take 16), running := false },
      stream := w.stream.drop (23 + leVal ((w.stream.drop 19).take 4)),
      out := w.out ++ [.generalError] } := by
  unfold step
  rw [parseRequest_long _ hlen]
  simp only [hcode]

def c5World : World :=
  { sess := { initSession with name := some "zoe" }, db := emptyDB, fs := emptyFs,
    stream := mkHeader 4 999 0, out := [] }

theorem c5_witness :
    step okOracle c5World = .ok { c5World with
      sess := { c5World.sess with client_id := some (c5World.stream.take 16), running := false },
      stream := c5World.stream.drop (23 + leVal ((c5World.stream.drop 19).take 4)),
      out := c5World.out ++ [.generalError] } :=
  c5_unknown_code okOracle c5World (by decide) (by decide)

/-- C8: a `CRC_MISMATCH` request only logs: besides the client-id header
assignment that every request performs, the session (`name`, `aes_key`,
`running`, `received_packets`), database, filesystem and responses-sent are
all unchanged, and the loop continues (`running` keeps its prior value). -/
theorem c8_crc_mismatch_noop (o : Oracle) (w : World)
    (hlen : 23 ≤ w.stream.length)
    (hcode : codeOf (leVal ((w.stream.drop 17).take 2)) = some .crcMismatch) :
    step o w = .ok { w with
      sess := { w.sess with client_id := some (w.stream.take 16) },
      stream := w.stream.drop (23 + leVal ((w.stream.drop 19).take 4)) } := by
  unfold step
  rw [parseRequest_long _ hlen]
  simp only [hcode]

def c8World : World :=
  { sess := { initSession with
      name := some "bob", aes_key := some (List.replicate 32 9), received_packets := 4 },
    db := emptyDB, fs := emptyFs, stream := mkHeader 6 1030 3 ++ [102, 0, 0], out := [] }

theorem c8_witness :
    step okOracle c8World = .ok { c8World with
      sess := { c8World.sess with client_id := some (c8World.stream.take 16) },
      stream := c8World.stream.drop (23 + leVal ((c8World.stream.drop 19).take 4)) } :=
  c8_crc_mismatch_noop okOracle c8World (by decide) (by decide)

/-! ### Client-id tracking (C4) -/

lemma handle_register_cid (o : Oracle) (s : Session) (db : DBState) (fs : Fs) (p : Bytes)
    (s1 : Session) (db1 : DBState) (fs1 : Fs) (out : List Response)
    (h : handle_register o s db fs p = .ok s1 db1 fs1 out) :
    s1.client_id = (if o.lookupFails = false ∧ db.hasName (pyDecode p) = false
      then some (string_to_uuid (pyDecode p)) else s.client_id) := by
  unfold handle_register at h
  cases hl : o.lookupFails <;> cases hn : db.hasName (pyDecode p) <;>
    simp only [hl, hn, Bool.false_eq_true, if_false, if_true] at h <;>
    repeat' split at h
  all_goals
    first
      | (simp only [HResult.ok.injEq] at h
         rw [← h.1]
         all_goals simp [hl, hn])
      | simp_all

lemma save_body_cid (o : Oracle) (s : Session) (fs : Fs) (p : Bytes)
    (s1 : Session) (fs1 : Fs) (out : List Response)
    (h : save_body o s fs p = .ok (s1, fs1, out)) : s1.client_id = s.client_id := by
  unfold save_body at h
  repeat' split at h
  all_goals
    first
      | (simp only [Except.ok.injEq, Prod.mk.injEq] at h
         rw [← h.1]
         all_goals rfl)
      | simp_all

lemma handle_save_file_cid (o : Oracle) (s : Session) (db : DBState) (fs : Fs) (p : Bytes)
    (s1 : Session) (db1 : DBState) (fs1 : Fs) (out : List Response)
    (h : handle_save_file o s db fs p = .ok s1 db1 fs1 out) : s1.client_id = s.client_id := by
  unfold handle_save_file at h
  split at h
  case _ sA fsA outA heq =>
    simp only [HResult.ok.injEq] at h
    obtain ⟨h1, -, -, -⟩ := h
    subst h1
    exact save_body_cid o s fs p _ _ _ heq
  case _ e fsA heq =>
    split at h
    · simp only [HResult.ok.injEq] at h
      obtain ⟨h1, -, -, -⟩ := h
      subst h1
      rfl
    · cases h

lemma handle_login_cid (o : Oracle) (s : Session) (db : DBState) (fs : Fs) (p : Bytes)
    (s1 : Session) (db1 : DBState) (fs1 : Fs) (out : List Response)
    (h : handle_login o s db fs p = .ok s1 db1 fs1 out) : s1.client_id = s.client_id := by
  unfold handle_login generate_aes_key at h
  cases hl : o.lookupFails <;>
    cases hn : db.hasAccount (pyDecode p) (s.client_id.getD []) <;>
    cases hg : o.getPubFails <;>
    cases hi : o.importFails <;>
    cases ha : o.addAesFails <;>
    cases hga : o.getAesFails <;>
    cases hdb : db.getPub (s.client_id.getD []) <;>
    simp only [hl, hn, hg, hi, ha, hga, hdb, Bool.false_eq_true, if_false, if_true] at h <;>
    repeat' split at h
  all_goals
    first
      | (simp only [HResult.ok.injEq] at h
         rw [← h.1]
         all_goals rfl)
      | simp_all

lemma handle_public_key_cid (o : Oracle) (s : Session) (db : DBState) (fs : Fs) (p : Bytes)
    (s1 : Session) (db1 : DBState) (fs1 : Fs) (out : List Response)
    (h : handle_public_key o s db fs p = .ok s1 db1 fs1 out) : s1.client_id = s.client_id := by
  unfold handle_public_key generate_aes_key at h
  cases hp : o.addPubFails <;>
    cases hg : o.getPubFails <;>
    cases hi : o.importFails <;>
    cases ha : o.addAesFails <;>
    cases hga : o.getAesFails <;>
    cases hdb : (db.setPub (s.client_id.getD []) (p.drop 255)).getPub (s.client_id.getD []) <;>
    simp only [hp, hg, hi, ha, hga, hdb, Bool.false_eq_true, if_false, if_true] at h <;>
    repeat' split at h
  all_goals
    first
      | (simp only [HResult.ok.injEq] at h
         rw [← h.1]
         all_goals rfl)
      | simp_all

lemma handle_transfer_success_cid (o : Oracle) (s : Session) (db : DBState) (fs : Fs) (p : Bytes)
    (s1 : Session) (db1 : DBState) (fs1 : Fs) (out : List Response)
    (h : handle_transfer_success o s db fs p = .ok s1 db1 fs1 out) : s1.client_id = s.client_id := by
  unfold handle_transfer_success at h
  repeat' split at h
  all_goals
    first
      | (simp only [HResult.ok.injEq] at h
         rw [← h.1]
         all_goals rfl)
      | simp_all

lemma handle_transfer_failed_cid (o : Oracle) (s : Session) (db : DBState) (fs : Fs) (p : Bytes)
    (s1 : Session) (db1 : DBState) (fs1 : Fs) (out : List Response)
    (h : handle_transfer_failed o s db fs p = .ok s1 db1 fs1 out) : s1.client_id = s.client_id := by
  unfold handle_transfer_failed at h
  split at h
  · simp at h
  · next nm heq =>
    by_cases hd : (if fs.fileExists nm (stripNulls (pyDecode p)) = true
        then fs.removeFile nm (stripNulls (pyDecode p)) else fs).hasDir nm = false
    · rw [if_pos hd] at h
      simp at h
    · rw [if_neg hd] at h
      repeat' split at h
      all_goals
        (simp only [HResult.ok.injEq] at h
         rw [← h.1]
         all_goals rfl)

lemma liftH_ok (w : World) (r : HResult) (w' : World) (h : liftH w r = .ok w') :
    ∃ s1 db1 fs1 out, r = .ok s1 db1 fs1 out ∧ w'.sess = s1 := by
  cases r with
  | ok s1 db1 fs1 out =>
    refine ⟨s1, db1, fs1, out, rfl, ?_⟩
    unfold liftH at h
    injection h with h2
    rw [← h2]
  | exn e => exact Except.noConfusion h

def c4World : World :=
  { sess := initSession, db := emptyDB, fs := emptyFs,
    stream := mkHeader 1 1030 0 ++ mkHeader 2 1030 0, out := [] }

/-- C4 counterexample: the claim says `client_id` stays empty until assigned
exactly once by the first successful registration or by login.  In fact
`get_requests` (client.py line 33) stores the header's client-id field into the
session on every parsed request: two consecutive `CRC_MISMATCH` requests (a
code that is neither registration nor login) leave two different client ids in
the session, so it is assigned twice without any registration or login. -/
theorem c4_counterexample :
    initSession.client_id = none ∧
    codeOf 1030 = some RequestCode.crcMismatch ∧
    cidAfter (step okOracle c4World) = some (List.replicate 16 1) ∧
    cidAfter (stepTwice okOracle c4World) = some (List.replicate 16 2) ∧
    (List.replicate 16 1 : Bytes) ≠ List.replicate 16 2 := by
  refine ⟨rfl, rfl, rfl, rfl, by decide⟩

/-- C4 amended: on every successfully parsed request the session's
`client_id` is overwritten with the 16-byte id from the request header; a
registration request that finds the name absent further overwrites it with the
identifier derived from the name (even when account creation then fails).  No
request leaves it unset once a request has been parsed. -/
theorem c4_client_id_amended (o : Oracle) (w : World) (cid : Bytes) (v code psize : Nat)
    (payload rest : Bytes) (w' : World)
    (hp : parseRequest w.stream = .request cid v code psize payload rest)
    (hw : step o w = .ok w') :
    w'.sess.client_id =
      (if codeOf code = some RequestCode.registrationRequest ∧ o.lookupFails = false ∧
          w.db.hasName (pyDecode payload) = false
       then some (string_to_uuid (pyDecode payload))
       else some cid) := by
  unfold step at hw
  split at hw
  case h_1 heq =>
    rw [hp] at heq
    cases heq
  case h_2 heq =>
    rw [hp] at heq
    cases heq
  case h_3 cid2 v2 code2 psize2 payload2 rest2 heq =>
    rw [hp] at heq
    injection heq with e1 e2 e3 e4 e5 e6
    subst e1 e2 e3 e4 e5 e6
    split at hw
    case h_1 heq2 =>
      obtain ⟨s1, db1, fs1, outh, hr, hsess⟩ := liftH_ok _ _ _ hw
      have hcid := handle_register_cid _ _ _ _ _ _ _ _ _ hr
      rw [hsess, hcid]
      simp [heq2]
    case h_2 heq2 =>
      obtain ⟨s1, db1, fs1, outh, hr, hsess⟩ := liftH_ok _ _ _ hw
      have hcid := handle_public_key_cid _ _ _ _ _ _ _ _ _ hr
      rw [hsess, hcid]
      simp [heq2]
    case h_3 heq2 =>
      obtain ⟨s1, db1, fs1, outh, hr, hsess⟩ := liftH_ok _ _ _ hw
      have hcid := handle_login_cid _ _ _ _ _ _ _ _ _ hr
      rw [hsess, hcid]
      simp [heq2]
    case h_4 heq2 =>
      obtain ⟨s1, db1, fs1, outh, hr, hsess⟩ := liftH_ok _ _ _ hw
      have hcid := handle_save_file_cid _ _ _ _ _ _ _ _ _ hr
      rw [hsess, hcid]
      simp [heq2]
    case h_5 heq2 =>
      obtain ⟨s1, db1, fs1, outh, hr, hsess⟩ := liftH_ok _ _ _ hw
      have hcid := handle_transfer_success_cid _ _ _ _ _ _ _ _ _ hr
      rw [hsess, hcid]
      simp [heq2]
    case h_6 heq2 =>
      injection hw with h2
      rw [← h2]
      simp [heq2]
    case h_7 heq2 =>
      obtain ⟨s1, db1, fs1, outh, hr, hsess⟩ := liftH_ok _ _ _ hw
      have hcid := handle_transfer_failed_cid _ _ _ _ _ _ _ _ _ hr
      rw [hsess, hcid]
      simp [heq2]
    case h_8 heq2 =>
      injection hw with h2
      rw [← h2]
      simp [heq2]

def c4wWorld : World :=
  { sess := initSession, db := emptyDB, fs := emptyFs,
    stream := mkHeader 9 1025 6 ++ [97, 108, 105, 99, 101, 0], out := [] }

def c4wAfter : World :=
  match step okOracle c4wWorld with
  | .ok w => w
  | .error _ => c4wWorld

theorem c4_witness :
    c4wAfter.sess.client_id = some (string_to_uuid (pyDecode [97, 108, 105, 99, 101, 0])) := by
  have h := c4_client_id_amended okOracle c4wWorld (List.replicate 16 9) 3 1025 6
    [97, 108, 105, 99, 101, 0] [] c4wAfter (by decide) rfl
  rw [h, if_pos]
  exact ⟨by decide, rfl, by decide⟩

/-! ### Registration of an existing name (C6) -/

/-- C6: when the store lookup succeeds and the submitted name already exists,
`handle_register` sends exactly one registration-failed response, clears
`running`, and leaves the database — in particular the existing account's
identifier — untouched. -/
theorem c6_duplicate_register (o : Oracle) (s : Session) (db : DBState) (fs : Fs) (p : Bytes)
    (hlook : o.lookupFails = false) (hex : db.hasName (pyDecode p) = true) :
    handle_register o s db fs p = .ok { s with running := false } db fs [.failedRegister] ∧
    (handle_register o s db fs p).outOf = [.failedRegister] := by
  have h : handle_register o s db fs p = .ok { s with running := false } db fs [.failedRegister] := by
    unfold handle_register
    simp only [hlook, Bool.false_eq_true, if_false, hex]
  exact ⟨h, by rw [h]; rfl⟩

def c6p : Bytes := [98, 111, 98, 0]

/-- The database state after a first successful registration of the same name. -/
def c6db1 : DBState :=
  match handle_register okOracle initSession emptyDB emptyFs c6p with
  | .ok _ db _ _ => db
  | .exn _ => emptyDB

theorem c6_witness :
    c6db1.hasName (pyDecode c6p) = true ∧
    c6db1.lookupName (pyDecode c6p) = some (string_to_uuid (pyDecode c6p)) ∧
    handle_register okOracle { initSession with client_id := some (List.replicate 16 4) } c6db1
        emptyFs c6p =
      .ok { initSession with client_id := some (List.replicate 16 4), running := false } c6db1
        emptyFs [.failedRegister] := by
  refine ⟨by decide, by decide, ?_⟩
  exact (c6_duplicate_register okOracle
    { initSession with client_id := some (List.replicate 16 4) } c6db1 emptyFs c6p rfl
    (by decide)).1

/-! ### FILE_TRANSFER_FAILED (C3) -/

/-- Filesystem state produced by `handle_transfer_failed` when the session has
a name and its directory exists: the partial file is removed if present, then
the directory is removed iff no files remain in it. -/
def fsAfterFailed (fs : Fs) (nm fname : String) : Fs :=
  if (if fs.fileExists nm fname then fs.removeFile nm fname else fs).listdir nm = []
  then (if fs.fileExists nm fname then fs.removeFile nm fname else fs).rmdir nm
  else (if fs.fileExists nm fname then fs.removeFile nm fname else fs)

def c3s : Session :=
  { initSession with name := some "carol", client_id := some (List.replicate 16 3) }

def c3fs : Fs := { dirs := ["carol"], files := [("carol", "f.txt", [1, 2, 3])] }

def c3failOracle : Oracle := { okOracle with saveRecordFails := true }

def c3p : Bytes := [102, 46, 116, 120, 116, 0]

/-- C3 counterexample: the claim says every `FILE_TRANSFER_FAILED` request
persists a failed file record, sends a final confirmation and clears `running`.
When `database.save_file` reports failure (client.py line 201), the handler
instead sends a generic error, persists nothing, and leaves the session
active: here the partial file and the emptied directory are removed, but the
database is unchanged, the only response is a generic error, and `running`
stays true. -/
theorem c3_counterexample :
    handle_transfer_failed c3failOracle c3s emptyDB c3fs c3p =
      .ok c3s emptyDB { dirs := [], files := [] } [.generalError] ∧
    c3s.running = true ∧
    (handle_transfer_failed c3failOracle c3s emptyDB c3fs c3p).runningOf c3s.running = true ∧
    (handle_transfer_failed c3failOracle c3s emptyDB c3fs c3p).outOf = [.generalError] := by
  refine ⟨by decide, rfl, by decide, by decide⟩

/-- C3 amended: for a `FILE_TRANSFER_FAILED` request on a session whose name is
set and whose directory exists, the handler deletes the partial file if it
exists and removes the client directory iff no other files remain in it; then,
if persisting the failed file record succeeds, it sends a final confirmation
and clears `running`, while if the store reports failure it sends a generic
error and leaves the session state (including `running`) unchanged. -/
theorem c3_transfer_failed_amended (o : Oracle) (s : Session) (db : DBState) (fs : Fs)
    (p : Bytes) (nm : String) (hname : s.name = some nm) (hdir : fs.hasDir nm = true) :
    (o.saveRecordFails = false →
      handle_transfer_failed o s db fs p =
        .ok { s with running := false }
          (db.addFile (s.client_id.getD []) (stripNulls (pyDecode p))
            (pathJoin nm (stripNulls (pyDecode p))) false)
          (fsAfterFailed fs nm (stripNulls (pyDecode p)))
          [.finalConfirmation (s.client_id.getD [])]) ∧
    (o.saveRecordFails = true →
      handle_transfer_failed o s db fs p =
        .ok s db (fsAfterFailed fs nm (stripNulls (pyDecode p))) [.generalError]) ∧
    ((if fs.fileExists nm (stripNulls (pyDecode p)) then
        fs.removeFile nm (stripNulls (pyDecode p)) else fs).fileExists nm
      (stripNulls (pyDecode p)) = false) ∧
    ((fsAfterFailed fs nm (stripNulls (pyDecode p))).hasDir nm = false ↔
      (if fs.fileExists nm (stripNulls (pyDecode p)) then
        fs.removeFile nm (stripNulls (pyDecode p)) else fs).listdir nm = []) := by
  have hfs1 : (if fs.fileExists nm (stripNulls (pyDecode p)) = true then
      fs.removeFile nm (stripNulls (pyDecode p)) else fs).hasDir nm = true := by
    split
    · rw [hasDir_removeFile]
      exact hdir
    · exact hdir
  refine ⟨?_, ?_, ?_, ?_⟩
  · intro hrec
    unfold handle_transfer_failed fsAfterFailed
    simp only [hname, hfs1, hrec, Bool.true_eq_false, Bool.false_eq_true, if_false]
  · intro hrec
    unfold handle_transfer_failed fsAfterFailed
    simp only [hname, hfs1, hrec, Bool.true_eq_false, Bool.false_eq_true, if_false, if_true]
  · split
    · rw [fileExists_removeFile]
    · next hne =>
      simp only [Bool.not_eq_true] at hne
      exact hne
  · unfold fsAfterFailed
    by_cases hld : (if fs.fileExists nm (stripNulls (pyDecode p)) = true then
        fs.removeFile nm (stripNulls (pyDecode p)) else fs).listdir nm = []
    · rw [if_pos hld]
      simp [hasDir_rmdir, hld]
    · rw [if_neg hld]
      simp [hfs1, hld]

theorem c3_witness :
    handle_transfer_failed okOracle c3s emptyDB c3fs c3p =
      .ok { c3s with running := false }
        (emptyDB.addFile (List.replicate 16 3) "f.txt" (pathJoin "carol" "f.txt") false)
        (fsAfterFailed c3fs "carol" "f.txt") [.finalConfirmation (List.replicate 16 3)] := by
  have h := (c3_transfer_failed_amended okOracle c3s emptyDB c3fs c3p "carol" rfl
    (by decide)).1 rfl
  exact h

/-! ### Requests before any registration or login (C10) -/

/-- C10: when no name is set in the session (no registration or login has
succeeded), a `SAVE_FILE_REQUEST` whose payload holds a full sub-header, a
`FILE_TRANSFER_SUCCESS`, or a `FILE_TRANSFER_FAILED` request makes the handler
raise `TypeError` at `os.path.join(None, ...)`; `TypeError` is not in
`handle_save_file`'s caught set, so the exception escapes all three handlers
and no response — not even a generic error — is sent. -/
theorem c10_missing_name_typeerror (o : Oracle) (s : Session) (db : DBState) (fs : Fs)
    (p q : Bytes) (hname : s.name = none) (hp : 267 ≤ p.length) :
    handle_save_file o s db fs p = .exn .typeError ∧
    handle_transfer_success o s db fs q = .exn .typeError ∧
    handle_transfer_failed o s db fs q = .exn .typeError ∧
    caughtBySave .typeError = false ∧
    (handle_save_file o s db fs p).outOf = [] := by
  have h267 : ¬ p.length < 267 := by omega
  have h1 : handle_save_file o s db fs p = .exn .typeError := by
    unfold handle_save_file save_body
    simp only [h267, if_false, hname, caughtBySave, Bool.false_eq_true]
  refine ⟨h1, ?_, ?_, rfl, by rw [h1]; rfl⟩
  · unfold handle_transfer_success
    rw [hname]
  · unfold handle_transfer_failed
    rw [hname]

theorem c10_witness :
    handle_save_file okOracle initSession emptyDB emptyFs (List.replicate 267 0) =
        .exn .typeError ∧
    handle_transfer_success okOracle initSession emptyDB emptyFs [120] = .exn .typeError ∧
    handle_transfer_failed okOracle initSession emptyDB emptyFs [120] = .exn .typeError := by
  have h := c10_missing_name_typeerror okOracle initSession emptyDB emptyFs
    (List.replicate 267 0) [120] rfl (by decide)
  exact ⟨h.1, h.2.1, h.2.2.1⟩

/-! ### Misaligned ciphertext (C9) -/

def c9p : Bytes := List.replicate 267 0 ++ [9]

def c9s : Session :=
  { client_id := some (List.replicate 16 1), running := true,
    aes_key := some (List.replicate 32 7), name := some "alice", received_packets := 0 }

/-- C9: a `SAVE_FILE_REQUEST` payload of 268 bytes has a ciphertext slice
`payload[267:1291]` of length 1, not a multiple of 16, so `cipher.decrypt`
raises `ValueError`; `ValueError` is not in the handler's caught set
(`IOError, OSError, struct.error, FileNotFoundError`), so the exception
escapes `handle_save_file`: no generic-error response is sent and `running` is
not cleared — the session is not cleanly terminated. -/
theorem c9_decrypt_valueerror_escape :
    267 ≤ c9p.length ∧
    (chunkOf c9p).length % 16 = 1 ∧
    caughtBySave .valueError = false ∧
    handle_save_file okOracle c9s emptyDB emptyFs c9p = .exn .valueError ∧
    (handle_save_file okOracle c9s emptyDB emptyFs c9p).outOf = [] ∧
    (handle_save_file okOracle c9s emptyDB emptyFs c9p).runningOf c9s.running = true := by
  refine ⟨by decide, by decide, rfl, by decide, by decide, by decide⟩

/-! ### Fault fatality taxonomy (C7) -/

def c7cid : Bytes := List.replicate 16 5

def c7p : Bytes := [100, 97, 118, 101, 0]

def c7db : DBState :=
  { accounts := [(pyDecode c7p, c7cid)], pubKeys := [(c7cid, [1, 2, 3])], aesKeys := [],
    fileRecords := [] }

def c7s : Session := { initSession with client_id := some c7cid }

def c7importOracle : Oracle := { okOracle with importFails := true }

/-- C7 counterexample: the claim says every application fault outside the
file-write path — it lists crypto failure among the application faults — sends
a generic-error response and returns control to the dispatch loop with the
session still active.  A crypto failure does neither: during a login's key
exchange, a malformed stored public key makes `RSA.importKey` raise
`ValueError` (client.py line 120), which no handler catches — the login
handler ends in an escaped exception, no response (in particular no generic
error) is sent, and control never returns to the loop. -/
theorem c7_counterexample :
    c7db.hasAccount (pyDecode c7p) (c7s.client_id.getD []) = true ∧
    handle_login c7importOracle c7s c7db emptyFs c7p = .exn .valueError ∧
    (handle_login c7importOracle c7s c7db emptyFs c7p).outOf = [] ∧
    (handle_login c7importOracle c7s c7db emptyFs c7p).runningOf c7s.running = true := by
  refine ⟨by decide, by decide, by decide, by decide⟩

/-- C7 amended: among the caught application faults — store lookup errors,
account/key/record store failures, missing key material, disk write failure,
CRC computation failure — only the chunk-save path (write failure or CRC
failure) clears `running` after its generic-error response; every other caught
fault sends exactly one generic error and returns to the dispatch loop with
`running` unchanged.  Crypto failures are not caught at all: a misaligned
ciphertext in the chunk-save handler and an unparseable stored key during the
login key exchange raise exceptions that escape with no response sent. -/
theorem c7_fault_fatality_amended (o : Oracle) (s : Session) (db : DBState) (fs : Fs)
    (p : Bytes) (nm : String) (k pk : Bytes) :
    (o.lookupFails = true →
      handle_register o s db fs p = .ok s db fs [.generalError]) ∧
    (o.lookupFails = false → db.hasName (pyDecode p) = false → o.registerFails = true →
      handle_register o s db fs p =
        .ok { s with client_id := some (string_to_uuid (pyDecode p)) } db fs [.generalError]) ∧
    (o.lookupFails = true →
      handle_login o s db fs p = .ok s db fs [.generalError]) ∧
    (o.lookupFails = false → db.hasAccount (pyDecode p) (s.client_id.getD []) = true →
      o.getPubFails = true →
      handle_login o s db fs p =
        .ok { s with name := some (pyDropLast (pyDecode p)) } db fs [.generalError]) ∧
    (o.lookupFails = false → db.hasAccount (pyDecode p) (s.client_id.getD []) = true →
      o.getPubFails = false → db.getPub (s.client_id.getD []) = some pk →
      o.importFails = false → o.addAesFails = true →
      handle_login o s db fs p =
        .ok { s with name := some (pyDropLast (pyDecode p)), aes_key := some o.freshKey } db fs
          [.generalError]) ∧
    (o.lookupFails = false → db.hasAccount (pyDecode p) (s.client_id.getD []) = true →
      o.getPubFails = false → db.getPub (s.client_id.getD []) = some pk →
      o.importFails = false → o.addAesFails = false → o.getAesFails = true →
      handle_login o s db fs p =
        .ok { s with name := some (pyDropLast (pyDecode p)), aes_key := some o.freshKey }
          (db.setAes (s.client_id.getD []) (o.wrap o.freshKey)) fs [.generalError]) ∧
    (o.addPubFails = true → handle_public_key o s db fs p = .ok s db fs [.generalError]) ∧
    (o.addPubFails = false → o.getPubFails = true →
      handle_public_key o s db fs p =
        .ok s (db.setPub (s.client_id.getD []) (p.drop 255)) fs [.generalError]) ∧
    (s.name = some nm → o.saveRecordFails = true →
      handle_transfer_success o s db fs p = .ok s db fs [.generalError]) ∧
    (s.name = some nm → fs.hasDir nm = true → o.saveRecordFails = true →
      (handle_transfer_failed o s db fs p).outOf = [.generalError] ∧
      (handle_transfer_failed o s db fs p).runningOf s.running = s.running) ∧
    (s.name = some nm → s.aes_key = some k → 267 ≤ p.length →
      (chunkOf p).length % 16 = 0 → o.writeFails = true →
      (handle_save_file o s db fs p).outOf = [.generalError] ∧
      (handle_save_file o s db fs p).runningOf s.running = false) ∧
    (s.name = some nm → s.aes_key = some k → 267 ≤ p.length →
      (chunkOf p).length % 16 = 0 → o.writeFails = false →
      s.received_packets + 1 = tpOf p → o.crc = none →
      (handle_save_file o s db fs p).outOf = [.generalError] ∧
      (handle_save_file o s db fs p).runningOf s.running = false) ∧
    (s.name = some nm → s.aes_key = some k → 267 ≤ p.length →
      (chunkOf p).length % 16 ≠ 0 →
      handle_save_file o s db fs p = .exn .valueError ∧
      (handle_save_file o s db fs p).outOf = []) ∧
    (o.lookupFails = false → db.hasAccount (pyDecode p) (s.client_id.getD []) = true →
      o.getPubFails = false → db.getPub (s.client_id.getD []) = some pk →
      o.importFails = true →
      handle_login o s db fs p = .exn .valueError ∧
      (handle_login o s db fs p).outOf = []) := by
  refine ⟨?_, ?_, ?_, ?_, ?_, ?_, ?_, ?_, ?_, ?_, ?_, ?_, ?_, ?_⟩
  · intro h1
    unfold handle_register
    simp only [h1, if_true]
  · intro h1 h2 h3
    unfold handle_register
    simp only [h1, h2, h3, Bool.false_eq_true, if_false, if_true]
  · intro h1
    unfold handle_login
    simp only [h1, if_true]
  · intro h1 h2 h3
    unfold handle_login generate_aes_key
    simp only [h1, h2, h3, Bool.false_eq_true, if_false, if_true]
  · intro h1 h2 h3 h4 h5 h6
    unfold handle_login generate_aes_key
    simp only [h1, h2, h3, h4, h5, h6, Bool.false_eq_true, if_false, if_true]
  · intro h1 h2 h3 h4 h5 h6 h7
    unfold handle_login generate_aes_key
    simp only [h1, h2, h3, h4, h5, h6, h7, Bool.false_eq_true, if_false, if_true]
  · intro h1
    unfold handle_public_key
    simp only [h1, if_true]
  · intro h1 h2
    unfold handle_public_key generate_aes_key
    simp only [h1, h2, Bool.false_eq_true, if_false, if_true]
  · intro h1 h2
    unfold handle_transfer_success
    rw [h1]
    simp only [h2, if_true]
  · intro h1 h2 h3
    have hfs1 : (if fs.fileExists nm (stripNulls (pyDecode p)) = true then
        fs.removeFile nm (stripNulls (pyDecode p)) else fs).hasDir nm = true := by
      split
      · rw [hasDir_removeFile]
        exact h2
      · exact h2
    have h := (c3_transfer_failed_amended o s db fs p nm h1 h2).2.1 h3
    rw [h]
    exact ⟨rfl, rfl⟩
  · intro h1 h2 h3 h4 h5
    have h267 : ¬ p.length < 267 := by omega
    unfold handle_save_file save_body
    rw [h1, h2]
    simp only [h267, if_false, h4, h5, Bool.false_eq_true, if_true, ne_eq,
      not_true_eq_false, not_false_eq_true]
    constructor <;> first | rfl | trivial
  · intro h1 h2 h3 h4 h5 h6 h7
    have h267 : ¬ p.length < 267 := by omega
    unfold handle_save_file save_body
    rw [h1, h2]
    simp only [h267, if_false, h4, h5, h6, h7, Bool.false_eq_true, if_true, ne_eq,
      not_true_eq_false, not_false_eq_true]
    constructor <;> first | rfl | trivial
  · intro h1 h2 h3 h4
    have h267 : ¬ p.length < 267 := by omega
    unfold handle_save_file save_body
    rw [h1, h2]
    simp only [h267, if_false, h4, ne_eq, not_false_eq_true, if_true]
    constructor <;> first | rfl | trivial
  · intro h1 h2 h3 h4 h5
    unfold handle_login generate_aes_key
    simp only [h1, h2, h3, h4, h5, Bool.false_eq_true, if_false, if_true]
    constructor <;> first | rfl | trivial

def oLookupFail : Oracle := { okOracle with lookupFails := true }

def oRegFail : Oracle := { okOracle with registerFails := true }

def oGetPubFail : Oracle := { okOracle with getPubFails := true }

def oAddAesFail : Oracle := { okOracle with addAesFails := true }

def oGetAesFail : Oracle := { okOracle with getAesFails := true }

def oAddPubFail : Oracle := { okOracle with addPubFails := true }

def oWriteFail : Oracle := { okOracle with writeFails := true }

def oCrcFail : Oracle := { okOracle with crc := none }

def c7fsA : Fs := { dirs := ["alice"], files := [] }

def c7save : Bytes := List.replicate 10 0 ++ [1, 0] ++ List.replicate 255 0

theorem c7_witness :
    (handle_register oLookupFail c7s c7db emptyFs c7p = .ok c7s c7db emptyFs [.generalError]) ∧
    (handle_register oRegFail c7s emptyDB emptyFs c7p =
      .ok { c7s with client_id := some (string_to_uuid (pyDecode c7p)) } emptyDB emptyFs
        [.generalError]) ∧
    (handle_login oLookupFail c7s c7db emptyFs c7p = .ok c7s c7db emptyFs [.generalError]) ∧
    (handle_login oGetPubFail c7s c7db emptyFs c7p =
      .ok { c7s with name := some (pyDropLast (pyDecode c7p)) } c7db emptyFs [.generalError]) ∧
    (handle_login oAddAesFail c7s c7db emptyFs c7p =
      .ok { c7s with
          name := some (pyDropLast (pyDecode c7p)),
          aes_key := some oAddAesFail.freshKey } c7db emptyFs [.generalError]) ∧
    (handle_login oGetAesFail c7s c7db emptyFs c7p =
      .ok { c7s with
          name := some (pyDropLast (pyDecode c7p)),
          aes_key := some oGetAesFail.freshKey }
        (c7db.setAes (c7s.client_id.getD []) (oGetAesFail.wrap oGetAesFail.freshKey)) emptyFs
        [.generalError]) ∧
    (handle_public_key oAddPubFail c7s c7db emptyFs c7p =
      .ok c7s c7db emptyFs [.generalError]) ∧
    (handle_public_key oGetPubFail c7s c7db emptyFs c7p =
      .ok c7s (c7db.setPub (c7s.client_id.getD []) (c7p.drop 255)) emptyFs [.generalError]) ∧
    (handle_transfer_success c3failOracle c9s c7db emptyFs c7p =
      .ok c9s c7db emptyFs [.generalError]) ∧
    ((handle_transfer_failed c3failOracle c9s c7db c7fsA c7p).outOf = [.generalError] ∧
      (handle_transfer_failed c3failOracle c9s c7db c7fsA c7p).runningOf c9s.running =
        c9s.running) ∧
    ((handle_save_file oWriteFail c9s emptyDB emptyFs c7save).outOf = [.generalError] ∧
      (handle_save_file oWriteFail c9s emptyDB emptyFs c7save).runningOf c9s.running = false) ∧
    ((handle_save_file oCrcFail c9s emptyDB emptyFs c7save).outOf = [.generalError] ∧
      (handle_save_file oCrcFail c9s emptyDB emptyFs c7save).runningOf c9s.running = false) ∧
    (handle_save_file okOracle c9s emptyDB emptyFs (c7save ++ [9]) = .exn .valueError ∧
      (handle_save_file okOracle c9s emptyDB emptyFs (c7save ++ [9])).outOf = []) ∧
    (handle_login c7importOracle c7s c7db emptyFs c7p = .exn .valueError ∧
      (handle_login c7importOracle c7s c7db emptyFs c7p).outOf = []) := by
  refine ⟨?_, ?_, ?_, ?_, ?_, ?_, ?_, ?_, ?_, ?_, ?_, ?_, ?_, ?_⟩
  · exact (c7_fault_fatality_amended oLookupFail c7s c7db emptyFs c7p "x" [] []).1 rfl
  · exact (c7_fault_fatality_amended oRegFail c7s emptyDB emptyFs c7p "x" [] []).2.1
      rfl (by decide) rfl
  · exact (c7_fault_fatality_amended oLookupFail c7s c7db emptyFs c7p "x" [] []).2.2.1 rfl
  · exact (c7_fault_fatality_amended oGetPubFail c7s c7db emptyFs c7p "x" [] []).2.2.2.1
      rfl (by decide) rfl
  · exact (c7_fault_fatality_amended oAddAesFail c7s c7db emptyFs c7p "x" [] [1, 2, 3]
      ).2.2.2.2.1 rfl (by decide) rfl (by decide) rfl rfl
  · exact (c7_fault_fatality_amended oGetAesFail c7s c7db emptyFs c7p "x" [] [1, 2, 3]
      ).2.2.2.2.2.1 rfl (by decide) rfl (by decide) rfl rfl rfl
  · exact (c7_fault_fatality_amended oAddPubFail c7s c7db emptyFs c7p "x" [] []).2.2.2.2.2.2.1
      rfl
  · exact (c7_fault_fatality_amended oGetPubFail c7s c7db emptyFs c7p "x" [] []
      ).2.2.2.2.2.2.2.1 rfl rfl
  · exact (c7_fault_fatality_amended c3failOracle c9s c7db emptyFs c7p "alice" [] []
      ).2.2.2.2.2.2.2.2.1 rfl rfl
  · exact (c7_fault_fatality_amended c3failOracle c9s c7db c7fsA c7p "alice" [] []
      ).2.2.2.2.2.2.2.2.2.1 rfl (by decide) rfl
  · exact (c7_fault_fatality_amended oWriteFail c9s emptyDB emptyFs c7save "alice"
      (List.replicate 32 7) []).2.2.2.2.2.2.2.2.2.2.1 rfl rfl (by decide) (by decide) rfl
  · exact (c7_fault_fatality_amended oCrcFail c9s emptyDB emptyFs c7save "alice"
      (List.replicate 32 7) []).2.2.2.2.2.2.2.2.2.2.2.1 rfl rfl (by decide) (by decide) rfl
      (by decide) rfl
  · exact (c7_fault_fatality_amended okOracle c9s emptyDB emptyFs (c7save ++ [9]) "alice"
      (List.replicate 32 7) []).2.2.2.2.2.2.2.2.2.2.2.2.1 rfl rfl (by decide) (by decide)
  · exact (c7_fault_fatality_amended c7importOracle c7s c7db emptyFs c7p "x" [] [1, 2, 3]
      ).2.2.2.2.2.2.2.2.2.2.2.2.2 rfl (by decide) rfl (by decide) rfl

/-! ### Chunk reassembly (C1) -/

lemma readFile_dirIf (fs : Fs) (nm d2 f : String) :
    (if fs.hasDir nm then fs else fs.mkdir nm).readFile d2 f = fs.readFile d2 f := by
  split <;> rfl

/-- Filesystem state after one successful chunk save: the client directory is
created if absent, a stale file is removed when this is the first packet, and
the (final-packet-stripped) plaintext is appended. -/
def fsAfterSave (o : Oracle) (s : Session) (fs : Fs) (nm : String) (p : Bytes) : Fs :=
  (if s.received_packets == 0 &&
      (if fs.hasDir nm then fs else fs.mkdir nm).fileExists nm (fnameOf p) then
    (if fs.hasDir nm then fs else fs.mkdir nm).removeFile nm (fnameOf p)
  else (if fs.hasDir nm then fs else fs.mkdir nm)).appendFile nm (fnameOf p)
    (if pnOf p = tpOf p then rstrip0 (o.dec (chunkOf p)) else o.dec (chunkOf p))

lemma readFile_fsAfterSave (o : Oracle) (s : Session) (fs : Fs) (nm : String) (p : Bytes) :
    (fsAfterSave o s fs nm p).readFile nm (fnameOf p) = some
      ((if s.received_packets = 0 then [] else (fs.readFile nm (fnameOf p)).getD []) ++
       (if pnOf p = tpOf p then rstrip0 (o.dec (chunkOf p)) else o.dec (chunkOf p))) := by
  unfold fsAfterSave
  rw [readFile_appendFile]
  congr 1
  by_cases h0 : s.received_packets = 0
  · have hb : (s.received_packets == 0) = true := by simpa using h0
    by_cases hex : (if fs.hasDir nm then fs else fs.mkdir nm).fileExists nm (fnameOf p)
    · simp [hb, hex, readFile_removeFile, h0]
    · have hrd : fs.readFile nm (fnameOf p) = none := by
        have h2 := hex
        rw [Fs.fileExists, readFile_dirIf] at h2
        exact Option.not_isSome_iff_eq_none.mp (by simpa using h2)
      simp [hb, hex, readFile_dirIf, h0, hrd]
  · have hb : (s.received_packets == 0) = false := by simpa using h0
    simp [hb, readFile_dirIf, h0]

lemma save_ok_unfold (o : Oracle) (s : Session) (db : DBState) (fs : Fs) (p : Bytes)
    (nm : String) (k : Bytes)
    (hlen : 267 ≤ p.length) (hname : s.name = some nm) (hkey : s.aes_key = some k)
    (halign : (chunkOf p).length % 16 = 0) (hw : o.writeFails = false) :
    handle_save_file o s db fs p =
      (if s.received_packets + 1 = tpOf p then
        match o.crc with
        | none => .ok { s with received_packets := 0, running := false } db
            (fsAfterSave o s fs nm p) [.generalError]
        | some c => .ok { s with received_packets := 0 } db (fsAfterSave o s fs nm p)
            [.sendFileCrc (s.client_id.getD []) (csOf p) (fnameOf p) c]
       else .ok { s with received_packets := s.received_packets + 1 } db
         (fsAfterSave o s fs nm p) []) := by
  have h267 : ¬ p.length < 267 := by omega
  unfold handle_save_file save_body fsAfterSave
  rw [hname, hkey]
  by_cases hrp : s.received_packets + 1 = tpOf p
  · rcases hcrc : o.crc with _ | c <;>
      simp only [h267, if_false, halign, hw, hrp, hcrc, Bool.false_eq_true, if_true, ne_eq,
        not_true_eq_false, not_false_eq_true, if_pos rfl]
  · simp only [h267, if_false, halign, hw, hrp, Bool.false_eq_true, if_true, ne_eq,
      not_true_eq_false, not_false_eq_true]

lemma save_ok_content (o : Oracle) (s : Session) (db : DBState) (fs : Fs) (p : Bytes)
    (nm : String) (k : Bytes)
    (hlen : 267 ≤ p.length) (hname : s.name = some nm) (hkey : s.aes_key = some k)
    (halign : (chunkOf p).length % 16 = 0) (hw : o.writeFails = false) :
    ∃ s1 out1,
      handle_save_file o s db fs p = .ok s1 db (fsAfterSave o s fs nm p) out1 ∧
      s1.running =
        (if s.received_packets + 1 = tpOf p ∧ o.crc = none then false else s.running) ∧
      s1.received_packets =
        (if s.received_packets + 1 = tpOf p then 0 else s.received_packets + 1) ∧
      s1.name = s.name ∧ s1.aes_key = s.aes_key ∧ s1.client_id = s.client_id := by
  rw [save_ok_unfold o s db fs p nm k hlen hname hkey halign hw]
  by_cases hrp : s.received_packets + 1 = tpOf p
  · rcases hcrc : o.crc with _ | c
    · rw [if_pos hrp]
      exact ⟨{ s with received_packets := 0, running := false }, [Response.generalError],
        by simp [hrp], by simp [hrp], by simp [hrp], rfl, rfl, rfl⟩
    · rw [if_pos hrp]
      exact ⟨{ s with received_packets := 0 },
        [Response.sendFileCrc (s.client_id.getD []) (csOf p) (fnameOf p) c],
        by simp [hrp], by simp [hrp], by simp [hrp], rfl, rfl, rfl⟩
  · rw [if_neg hrp]
    exact ⟨{ s with received_packets := s.received_packets + 1 }, [],
      by simp [hrp], by simp [hrp], by simp [hrp], rfl, rfl, rfl⟩

lemma runSaves_cons (o : Oracle) (s : Session) (db : DBState) (fs : Fs) (p : Bytes)
    (ps : List Bytes) (s1 : Session) (fs1 : Fs) (out : List Response)
    (h : handle_save_file o s db fs p = .ok s1 db fs1 out)
    (s2 : Session) (fs2 : Fs) (outs : List Response)
    (h2 : runSaves o s1 db fs1 ps = some (s2, fs2, outs)) :
    runSaves o s db fs (p :: ps) = some (s2, fs2, out ++ outs) := by
  simp only [runSaves, h, h2]

lemma runSaves_tail (o : Oracle) (db : DBState) (N : Nat) (nm fname : String) (k : Bytes)
    (hw : o.writeFails = false) (c : Nat) (hc : o.crc = some c) :
    ∀ (ps : List Bytes) (j : Nat) (s : Session) (fs : Fs) (cur : Bytes),
      ps ≠ [] → 0 < j → j + ps.length = N →
      s.name = some nm → s.aes_key = some k → s.received_packets = j →
      fs.readFile nm fname = some cur →
      (∀ i, (h : i < ps.length) → GoodPkt (ps.get ⟨i, h⟩) (j + i) N fname) →
      ∃ s1 fs1 outs, runSaves o s db fs ps = some (s1, fs1, outs) ∧
        fs1.readFile nm fname = some (cur ++ joinStrip (ps.map (fun q => o.dec (chunkOf q)))) ∧
        s1.running = s.running ∧ s1.received_packets = 0 := by
  intro ps
  induction ps with
  | nil =>
    intro j s fs cur hne
    exact absurd rfl hne
  | cons p ps ih =>
    intro j s fs cur hne hj hN hname hkey hrp hread hgood
    have hg0 : GoodPkt p j N fname := by simpa using hgood 0 (by simp)
    obtain ⟨hplen, hpn, htp, hfn, hal⟩ := hg0
    obtain ⟨s1, out1, hsave, hrun, hrp1, hnm1, hk1, -⟩ :=
      save_ok_content o s db fs p nm k hplen hname hkey hal hw
    have hreadfs1 := readFile_fsAfterSave o s fs nm p
    rw [hfn] at hreadfs1
    have hprev : (if s.received_packets = 0 then ([] : Bytes)
        else (fs.readFile nm fname).getD []) = cur := by
      rw [if_neg (by omega), hread]
      rfl
    rw [hprev] at hreadfs1
    cases ps with
    | nil =>
      have hN1 : j + 1 = N := by simpa using hN
      have hcond : s.received_packets + 1 = tpOf p := by
        rw [hrp, htp]
        exact hN1
      have hstrip : pnOf p = tpOf p := by
        rw [hpn, htp]
        exact hN1
      rw [if_pos hstrip] at hreadfs1
      have hrunEq := runSaves_cons o s db fs p [] s1 (fsAfterSave o s fs nm p) out1 hsave
        s1 (fsAfterSave o s fs nm p) [] rfl
      refine ⟨s1, _, _, hrunEq, ?_, ?_, ?_⟩
      · rw [hreadfs1]
        simp [joinStrip]
      · rw [hrun, hc]
        simp
      · rw [hrp1, if_pos hcond]
    | cons q rest =>
      have hlt : j + 1 < N := by
        have h5 := hN
        simp [List.length_cons] at h5
        omega
      have hcond : ¬ (s.received_packets + 1 = tpOf p) := by
        rw [hrp, htp]
        omega
      have hstrip : ¬ (pnOf p = tpOf p) := by
        rw [hpn, htp]
        omega
      rw [if_neg hstrip] at hreadfs1
      have hrp1' : s1.received_packets = j + 1 := by
        rw [hrp1, if_neg hcond, hrp]
      have ihh := ih (j + 1) s1 (fsAfterSave o s fs nm p) (cur ++ o.dec (chunkOf p))
        (by simp) (by omega)
        (by
          have h5 := hN
          simp [List.length_cons] at h5 ⊢
          omega)
        (by rw [hnm1, hname]) (by rw [hk1, hkey]) hrp1' hreadfs1
        (by
          intro i h2
          have h3 := hgood (i + 1) (by simpa using Nat.succ_lt_succ h2)
          have h4 : j + (i + 1) = j + 1 + i := by omega
          rw [h4] at h3
          simpa using h3)
      obtain ⟨s2, fs2, outs, hrunAll, hread2, hrunning2, hrp2⟩ := ihh
      have hrunEq := runSaves_cons o s db fs p (q :: rest) s1 (fsAfterSave o s fs nm p) out1
        hsave s2 fs2 outs hrunAll
      refine ⟨s2, fs2, _, hrunEq, ?_, ?_, ?_⟩
      · rw [hread2]
        simp [joinStrip, List.append_assoc]
      · rw [hrunning2, hrun, hc]
        simp
      · exact hrp2

/-- C1: for a file transferred as packets `1..N` submitted in order to the
chunk-save handler (session named, session key present, disk and CRC oracle
healthy), the file on disk afterwards is exactly the concatenation of the
per-packet plaintexts with trailing zero padding stripped from the final
packet only (`joinStrip`), the loop flag is untouched and the packet counter
is reset; and (second conjunct) every single successful call appends to the
file exactly the decrypted chunk, stripped of trailing zeros if and only if
the packet's header says `packet_number = total_packets`. -/
theorem c1_chunk_reassembly (o : Oracle) (s : Session) (db : DBState) (fs : Fs)
    (N : Nat) (nm fname : String) (k : Bytes) (ps : List Bytes) (c : Nat)
    (hN : ps.length = N) (hne : ps ≠ [])
    (hname : s.name = some nm) (hkey : s.aes_key = some k) (hrp : s.received_packets = 0)
    (hw : o.writeFails = false) (hc : o.crc = some c)
    (hgood : ∀ i, (h : i < ps.length) → GoodPkt (ps.get ⟨i, h⟩) i N fname) :
    (∃ s1 fs1 outs, runSaves o s db fs ps = some (s1, fs1, outs) ∧
      fs1.readFile nm fname = some (joinStrip (ps.map (fun q => o.dec (chunkOf q)))) ∧
      s1.running = s.running ∧ s1.received_packets = 0) ∧
    (∀ (p2 : Bytes) (s2 : Session) (fs2 : Fs),
      267 ≤ p2.length → s2.name = some nm → s2.aes_key = some k →
      (chunkOf p2).length % 16 = 0 →
      ∃ s3 out3, handle_save_file o s2 db fs2 p2 =
          .ok s3 db (fsAfterSave o s2 fs2 nm p2) out3 ∧
        (fsAfterSave o s2 fs2 nm p2).readFile nm (fnameOf p2) = some
          ((if s2.received_packets = 0 then []
            else (fs2.readFile nm (fnameOf p2)).getD []) ++
           (if pnOf p2 = tpOf p2 then rstrip0 (o.dec (chunkOf p2))
            else o.dec (chunkOf p2)))) := by
  constructor
  · rcases ps with _ | ⟨p, rest⟩
    · exact absurd rfl hne
    · have hg0 : GoodPkt p 0 N fname := by simpa using hgood 0 (by simp)
      obtain ⟨hplen, hpn, htp, hfn, hal⟩ := hg0
      obtain ⟨s1, out1, hsave, hrun, hrp1, hnm1, hk1, -⟩ :=
        save_ok_content o s db fs p nm k hplen hname hkey hal hw
      have hreadfs1 := readFile_fsAfterSave o s fs nm p
      rw [hfn, if_pos hrp, List.nil_append] at hreadfs1
      rcases rest with _ | ⟨q, rest2⟩
      · have hN1 : N = 1 := by simpa using hN.symm
        have hcond : s.received_packets + 1 = tpOf p := by
          rw [hrp, htp]
          omega
        have hstrip : pnOf p = tpOf p := by
          rw [hpn, htp]
          omega
        rw [if_pos hstrip] at hreadfs1
        have hrunEq := runSaves_cons o s db fs p [] s1 (fsAfterSave o s fs nm p) out1 hsave
          s1 (fsAfterSave o s fs nm p) [] rfl
        refine ⟨s1, _, _, hrunEq, ?_, ?_, ?_⟩
        · rw [hreadfs1]
          simp [joinStrip]
        · rw [hrun, hc]
          simp
        · rw [hrp1, if_pos hcond]
      · have hlen2 : N = rest2.length + 2 := by simpa using hN.symm
        have hcond : ¬ (s.received_packets + 1 = tpOf p) := by
          rw [hrp, htp]
          omega
        have hstrip : ¬ (pnOf p = tpOf p) := by
          rw [hpn, htp]
          omega
        rw [if_neg hstrip] at hreadfs1
        have hrp1' : s1.received_packets = 1 := by
          rw [hrp1, if_neg hcond, hrp]
        have ihh := runSaves_tail o db N nm fname k hw c hc (q :: rest2) 1 s1
          (fsAfterSave o s fs nm p) (o.dec (chunkOf p)) (by simp) (by omega)
          (by simp; omega)
          (by rw [hnm1, hname]) (by rw [hk1, hkey]) hrp1' hreadfs1
          (by
            intro i h2
            have h3 := hgood (i + 1) (by simpa using Nat.succ_lt_succ h2)
            simp only [List.get_cons_succ] at h3
            have h4 : 1 + i = i + 1 := by omega
            rw [h4]
            exact h3)
        obtain ⟨s2, fs2, outs, hrunAll, hread2, hrunning2, hrp2⟩ := ihh
        have hrunEq := runSaves_cons o s db fs p (q :: rest2) s1 (fsAfterSave o s fs nm p)
          out1 hsave s2 fs2 outs hrunAll
        refine ⟨s2, fs2, _, hrunEq, ?_, ?_, ?_⟩
        · rw [hread2]
          simp [joinStrip, List.append_assoc]
        · rw [hrunning2, hrun, hc]
          simp
        · exact hrp2
  · intro p2 s2 fs2 hl2 hn2 hk2 ha2
    obtain ⟨s3, out3, hsave, -, -, -, -, -⟩ :=
      save_ok_content o s2 db fs2 p2 nm k hl2 hn2 hk2 ha2 hw
    exact ⟨s3, out3, hsave, readFile_fsAfterSave o s2 fs2 nm p2⟩

def mkLe (n width : Nat) : Bytes := (List.range width).map (fun i => n / 256 ^ i % 256)

/-- A save-file payload with the given sub-header fields and ciphertext chunk. -/
def mkSavePayload (cs ds pn tp : Nat) (fname : List Nat) (chunk : Bytes) : Bytes :=
  mkLe cs 4 ++ mkLe ds 4 ++ mkLe pn 2 ++ mkLe tp 2 ++
    (fname ++ List.replicate (255 - fname.length) 0) ++ chunk

def c1p1 : Bytes := mkSavePayload 28 32 1 2 [102] ((List.range 16).map (fun i => i + 1))

def c1p2 : Bytes := mkSavePayload 28 32 2 2 [102] (List.replicate 12 5 ++ List.replicate 4 0)

def c1s : Session :=
  { client_id := some (List.replicate 16 1), running := true,
    aes_key := some (List.replicate 32 7), name := some "alice", received_packets := 0 }

/-- File content produced by a run of chunk saves, if it completed. -/
def savedContent (r : Option (Session × Fs × List Response)) (d f : String) : Option Bytes :=
  match r with
  | some (_, fs, _) => fs.readFile d f
  | none => none

theorem c1_witness :
    savedContent (runSaves okOracle c1s emptyDB emptyFs [c1p1, c1p2]) "alice" "f" =
      some (joinStrip [okOracle.dec (chunkOf c1p1), okOracle.dec (chunkOf c1p2)]) ∧
    joinStrip [okOracle.dec (chunkOf c1p1), okOracle.dec (chunkOf c1p2)] =
      (List.range 16).map (fun i => i + 1) ++ List.replicate 12 5 := by
  obtain ⟨⟨s1, fs1, outs, hrun, hread, -, -⟩, -⟩ :=
    c1_chunk_reassembly okOracle c1s emptyDB emptyFs 2 "alice" "f" (List.replicate 32 7)
      [c1p1, c1p2] 99 rfl (by decide) rfl rfl rfl rfl rfl
      (by
        intro i h
        match i with
        | 0 => exact (by decide : GoodPkt c1p1 0 2 "f")
        | 1 => exact (by decide : GoodPkt c1p2 1 2 "f")
        | n + 2 => exact absurd h (by simp))
  refine ⟨?_, by decide⟩
  rw [hrun]
  simp only [savedContent]
  exact hread
